import Mathlib

/-!
Verification of `jenkins/python/release_gate.py` (BalericaAI/devops).

The Python program is a release gate: per deployment environment ("mode")
it validates a directory of security-pipeline artifacts against a policy
and returns a distinct exit code per failure category; a multi-mode
orchestrator runs the gate per mode with fail-fast semantics.

Shallow embedding conventions used below:
* JSON values parsed by `json.loads` are modelled by the inductive `JVal`
  (numbers as `Int`; JSON objects as association lists with unique keys,
  first-match lookup).
* The filesystem is a map from path strings to file entries; each entry
  carries the raw text and, when the text is valid JSON, its parse.
* Python exceptions are modelled by `Except PyErr`; an `Except.error`
  result is an unhandled exception aborting the run.
* `print` output and filesystem probes are recorded as an `Event` trace so
  that claims about "X is never read" and "a summary is written once" are
  statable.
-/

/-- JSON value, as produced by Python `json.loads` (numbers restricted to
integers; objects are association lists with unique keys). -/
inductive JVal : Type where
  | null : JVal
  | bool : Bool → JVal
  | num : Int → JVal
  | str : String → JVal
  | arr : List JVal → JVal
  | obj : List (String × JVal) → JVal

/-- Python exceptions that the release-gate code can raise (all unhandled). -/
inductive PyErr : Type where
  | fileNotFound : String → PyErr
  | jsonDecode : String → PyErr
  | attributeError : PyErr
deriving DecidableEq

mutual
/-- Python `repr` of a JSON value (string-escape sequences inside quotes are
not modelled; any rendering of a container or quoted string contains a
bracket or quote character, so this cannot affect severity classification). -/
def pyRepr : JVal → String
  | JVal.null => "None"
  | JVal.bool true => "True"
  | JVal.bool false => "False"
  | JVal.num n => toString n
  | JVal.str s => "\x27" ++ s ++ "\x27"
  | JVal.arr xs => "[" ++ pyReprSeq xs ++ "]"
  | JVal.obj kvs => "\x7b" ++ pyReprMap kvs ++ "\x7d"

/-- Comma-separated `repr` of the elements of a JSON array. -/
def pyReprSeq : List JVal → String
  | [] => ""
  | [x] => pyRepr x
  | x :: y :: rest => pyRepr x ++ ", " ++ pyReprSeq (y :: rest)

/-- Comma-separated `repr` of the entries of a JSON object. -/
def pyReprMap : List (String × JVal) → String
  | [] => ""
  | [(k, v)] => "\x27" ++ k ++ "\x27: " ++ pyRepr v
  | (k, v) :: y :: rest => "\x27" ++ k ++ "\x27: " ++ pyRepr v ++ ", " ++ pyReprMap (y :: rest)
end

/-- Python `str()` of a JSON value: a string renders as itself, everything
else as its `repr`. -/
def pyStr : JVal → String
  | JVal.str s => s
  | v => pyRepr v

/-- Python `str.upper()` (ASCII case mapping, which covers every character of
the fixed severity categories and signer names used by the gate). -/
def pyUpper (s : String) : String := String.mk (s.data.map Char.toUpper)

/-- Python `str.lower()` (ASCII case mapping). -/
def pyLower (s : String) : String := String.mk (s.data.map Char.toLower)

/-- Python `str.strip()`: drop leading and trailing whitespace. -/
def pyStrip (s : String) : String :=
  String.mk (((s.data.dropWhile Char.isWhitespace).reverse.dropWhile Char.isWhitespace).reverse)

/-- Python `dict.get(k, dflt)` on a JSON object's entry list. -/
def dget (kvs : List (String × JVal)) (k : String) (dflt : JVal) : JVal :=
  match kvs with
  | [] => dflt
  | (k2, v) :: rest => if k2 = k then v else dget rest k dflt

/-- Python `v == s` for a JSON value `v` and a string literal `s`: true
exactly when `v` is the string `s` (no other JSON value compares equal to a
Python `str`). -/
def isStrEq (v : JVal) (s : String) : Bool :=
  match v with
  | JVal.str t => t = s
  | _ => false

/-- `SEV_ORDER` from the source: the six fixed severity categories. -/
def SEV_ORDER : List String :=
  ["CRITICAL", "HIGH", "MEDIUM", "LOW", "INFO", "UNSPECIFIED"]

/-- First-match lookup in a counts dictionary (Python `s in counts` /
`counts.get(s, 0)` run over the dict's entry list). -/
def lookupCount (k : String) : List (String × Nat) → Option Nat
  | [] => none
  | (k2, v) :: rest => if k2 = k then some v else lookupCount k rest

/-- Python `counts.get(k, 0)`. -/
def cget (counts : List (String × Nat)) (k : String) : Nat :=
  (lookupCount k counts).getD 0

/-- Python `counts[k] += 1`: increment the value at an existing key (no-op
when the key is absent; in the source the key is always present). -/
def incr (k : String) : List (String × Nat) → List (String × Nat)
  | [] => []
  | (k2, v) :: rest => if k2 = k then (k2, v + 1) :: rest else (k2, v) :: incr k rest

/-- `{s: 0 for s in SEV_ORDER}` from the source. -/
def zeroCounts : List (String × Nat) := SEV_ORDER.map (fun s => (s, 0))

/-- `str(f.get("severity", "UNSPECIFIED")).upper().strip()` for one element
`f` of the findings list: raises `AttributeError` when `f` is not a dict
(Python `f.get` exists only on dicts). -/
def sevOf (f : JVal) : Except PyErr String :=
  match f with
  | JVal.obj kvs =>
    Except.ok (pyStrip (pyUpper (pyStr (dget kvs "severity" (JVal.str "UNSPECIFIED")))))
  | _ => Except.error PyErr.attributeError

/-- The loop body of `count_severities`: fold the findings into the counts
dictionary, normalizing unknown keys to `UNSPECIFIED`. -/
def countLoop : List JVal → List (String × Nat) → Except PyErr (List (String × Nat))
  | [], counts => Except.ok counts
  | f :: rest, counts =>
    match sevOf f with
    | Except.error e => Except.error e
    | Except.ok s0 =>
      let s := if (lookupCount s0 counts).isSome then s0 else "UNSPECIFIED"
      countLoop rest (incr s counts)

/-- `count_severities` from the source: count findings by normalized
severity, starting from the all-zero six-key dictionary. -/
def count_severities (findings : List JVal) : Except PyErr (List (String × Nat)) :=
  countLoop findings zeroCounts

/-- A finding record whose `severity` field is the string `s`. -/
def mkFinding (s : String) : JVal := JVal.obj [("severity", JVal.str s)]

theorem sevOf_mkFinding (s : String) :
    sevOf (mkFinding s) = Except.ok (pyStrip (pyUpper s)) := rfl

theorem incr_keys (k : String) (l : List (String × Nat)) :
    (incr k l).map Prod.fst = l.map Prod.fst := by
  induction l with
  | nil => rfl
  | cons p rest ih =>
    obtain ⟨k2, v⟩ := p
    by_cases h : k2 = k <;> simp [incr, h, ih]

theorem incr_sum (k : String) (l : List (String × Nat)) (h : k ∈ l.map Prod.fst) :
    ((incr k l).map Prod.snd).sum = (l.map Prod.snd).sum + 1 := by
  induction l with
  | nil => simp at h
  | cons p rest ih =>
    obtain ⟨k2, v⟩ := p
    by_cases hk : k2 = k
    · simp [incr, hk]
      omega
    · have hmem : k ∈ rest.map Prod.fst := by
        simp at h
        rcases h with h | ⟨x, hx⟩
        · exact absurd h.symm hk
        · exact List.mem_map.mpr ⟨(k, x), hx, rfl⟩
      simp [incr, hk, ih hmem]
      omega

theorem lookupCount_isSome_iff (k : String) (l : List (String × Nat)) :
    (lookupCount k l).isSome = true ↔ k ∈ l.map Prod.fst := by
  induction l with
  | nil => simp [lookupCount]
  | cons p rest ih =>
    obtain ⟨k2, v⟩ := p
    by_cases hk : k2 = k <;> simp [lookupCount, hk, ih]
    exact fun h => absurd h.symm hk

theorem countLoop_inv (fnd : List JVal) :
    ∀ (c r : List (String × Nat)), c.map Prod.fst = SEV_ORDER →
      countLoop fnd c = Except.ok r →
      r.map Prod.fst = SEV_ORDER ∧ (r.map Prod.snd).sum = (c.map Prod.snd).sum + fnd.length := by
  induction fnd with
  | nil =>
    intro c r hc h
    simp [countLoop] at h
    simp [← h, hc]
  | cons f rest ih =>
    intro c r hc h
    simp only [countLoop] at h
    cases hs : sevOf f with
    | error e => rw [hs] at h; exact absurd h (by simp)
    | ok s0 =>
      rw [hs] at h
      simp only [] at h
      set s := if (lookupCount s0 c).isSome then s0 else "UNSPECIFIED" with hsdef
      have hmem : s ∈ c.map Prod.fst := by
        by_cases hl : (lookupCount s0 c).isSome
        · rw [hsdef, if_pos hl]
          exact (lookupCount_isSome_iff s0 c).mp (by simpa using hl)
        · rw [hsdef, if_neg hl, hc]
          decide
      have hkeys : (incr s c).map Prod.fst = SEV_ORDER := by rw [incr_keys, hc]
      obtain ⟨h1, h2⟩ := ih (incr s c) r hkeys h
      refine ⟨h1, ?_⟩
      rw [h2, incr_sum s c hmem]
      simp
      omega

/-- C3: For every list of findings on which the Severity Aggregator
produces an output, the output dictionary has exactly the six fixed keys
`CRITICAL, HIGH, MEDIUM, LOW, INFO, UNSPECIFIED` (in order, each with a
count in `Nat`), and the six counts sum to the length of the input list. -/
theorem count_severities_total (findings : List JVal) (counts : List (String × Nat))
    (h : count_severities findings = Except.ok counts) :
    counts.map Prod.fst = SEV_ORDER ∧ (counts.map Prod.snd).sum = findings.length := by
  have h0 : zeroCounts.map Prod.fst = SEV_ORDER := rfl
  obtain ⟨h1, h2⟩ := countLoop_inv findings zeroCounts counts h0 h
  refine ⟨h1, ?_⟩
  rw [h2]
  have hz : (zeroCounts.map Prod.snd).sum = 0 := rfl
  omega

theorem count_severities_total_witness :
    ([("CRITICAL", 1), ("HIGH", 1), ("MEDIUM", 0), ("LOW", 0), ("INFO", 0),
        ("UNSPECIFIED", 1)].map Prod.fst = SEV_ORDER) ∧
    (([("CRITICAL", 1), ("HIGH", 1), ("MEDIUM", 0), ("LOW", 0), ("INFO", 0),
        ("UNSPECIFIED", 1)].map Prod.snd).sum =
      [mkFinding "HIGH", mkFinding "critical", JVal.obj []].length) :=
  count_severities_total [mkFinding "HIGH", mkFinding "critical", JVal.obj []] _ rfl

theorem countLoop_allObj_ok (fnd : List JVal) :
    ∀ c : List (String × Nat), (∀ f ∈ fnd, ∃ kvs, f = JVal.obj kvs) →
      ∃ r, countLoop fnd c = Except.ok r := by
  induction fnd with
  | nil => intro c _; exact ⟨c, rfl⟩
  | cons f rest ih =>
    intro c hall
    obtain ⟨kvs, hf⟩ := hall f (by simp)
    have hrest : ∀ g ∈ rest, ∃ kvs2, g = JVal.obj kvs2 := fun g hg => hall g (by simp [hg])
    subst hf
    simp only [countLoop, sevOf]
    exact ih _ hrest

/-- C5 counterexample: the Severity Aggregator does raise on an input entry
that is not a record: a bare number in the findings list raises
`AttributeError` (Python `f.get` exists only on dicts), contradicting the
claim that every malformed element is folded into `UNSPECIFIED` without a
failure. -/
theorem count_severities_nonrecord_raises_cex :
    count_severities [JVal.num 3] = Except.error PyErr.attributeError := rfl

/-- C5 (amended): for every collection whose entries are all records
(dicts), the Severity Aggregator returns a result and never raises; a
record with a missing severity field or a non-string severity value is
counted under `UNSPECIFIED` rather than causing a failure.  (An entry that
is not a record raises `AttributeError`.) -/
theorem count_severities_records_total_amended :
    (∀ findings : List JVal, (∀ f ∈ findings, ∃ kvs, f = JVal.obj kvs) →
      ∃ c, count_severities findings = Except.ok c) ∧
    (count_severities
        [JVal.obj [], JVal.obj [("severity", JVal.num 3)], JVal.obj [("severity", JVal.null)]] =
      Except.ok [("CRITICAL", 0), ("HIGH", 0), ("MEDIUM", 0), ("LOW", 0), ("INFO", 0),
        ("UNSPECIFIED", 3)]) := by
  constructor
  · intro findings hall
    exact countLoop_allObj_ok findings zeroCounts hall
  · rfl

theorem count_severities_records_total_amended_witness :
    ∃ c, count_severities [JVal.obj [("severity", JVal.num 3)], JVal.obj []] = Except.ok c :=
  count_severities_records_total_amended.1
    [JVal.obj [("severity", JVal.num 3)], JVal.obj []]
    (by intro f hf; fin_cases hf <;> exact ⟨_, rfl⟩)

theorem lookupCount_zero_none (a : String) (h : a ∉ SEV_ORDER) :
    lookupCount a zeroCounts = none := by
  simp only [SEV_ORDER, List.mem_cons, List.not_mem_nil, or_false, not_or] at h
  obtain ⟨h1, h2, h3, h4, h5, h6⟩ := h
  show lookupCount a [("CRITICAL", 0), ("HIGH", 0), ("MEDIUM", 0), ("LOW", 0), ("INFO", 0),
    ("UNSPECIFIED", 0)] = none
  simp only [lookupCount]
  rw [if_neg (Ne.symm h1), if_neg (Ne.symm h2), if_neg (Ne.symm h3),
    if_neg (Ne.symm h4), if_neg (Ne.symm h5), if_neg (Ne.symm h6)]

/-- C6: severity strings that agree after uppercasing and stripping
whitespace are aggregated identically (in any findings list), and a
severity string whose normalized form is not one of the six fixed
categories is counted under `UNSPECIFIED` rather than dropped. -/
theorem severity_normalization :
    (∀ (s1 s2 : String) (rest : List JVal),
      pyStrip (pyUpper s1) = pyStrip (pyUpper s2) →
      count_severities (mkFinding s1 :: rest) = count_severities (mkFinding s2 :: rest)) ∧
    (∀ s : String, pyStrip (pyUpper s) ∉ SEV_ORDER →
      count_severities [mkFinding s] =
        Except.ok [("CRITICAL", 0), ("HIGH", 0), ("MEDIUM", 0), ("LOW", 0), ("INFO", 0),
          ("UNSPECIFIED", 1)]) := by
  constructor
  · intro s1 s2 rest h
    simp only [count_severities, countLoop, sevOf_mkFinding, h]
  · intro s h
    have hl : lookupCount (pyStrip (pyUpper s)) zeroCounts = none := lookupCount_zero_none _ h
    simp only [count_severities, countLoop, sevOf_mkFinding, hl]
    rfl

theorem severity_normalization_witness :
    (count_severities [mkFinding " high ", mkFinding "x"] =
      count_severities [mkFinding "HIGH", mkFinding "x"]) ∧
    (count_severities [mkFinding "WOBBLE"] =
      Except.ok [("CRITICAL", 0), ("HIGH", 0), ("MEDIUM", 0), ("LOW", 0), ("INFO", 0),
        ("UNSPECIFIED", 1)]) :=
  ⟨severity_normalization.1 " high " "HIGH" [mkFinding "x"] (by decide),
   severity_normalization.2 "WOBBLE" (by decide)⟩

/-- The `release_gate` section of the parsed policy.  The source reads it as
`policy.get("release_gate", {}) or {}` and then accesses each field with
`rg.get(key, default)` (plus `int(...)` on the two thresholds and `or []` on
the list fields); for a policy whose fields have their documented types those
accesses are exactly the field reads of this structure, whose defaults are
the source's `get` defaults. -/
structure ReleaseGate where
  enabled : Bool := true
  required_files : List String := []
  require_signed_manifest : Bool := true
  allowed_signers : List String := ["minisign", "openssl"]
  fail_on_critical : Bool := true
  max_high_findings : Int := 999999
  max_medium_findings : Int := 999999
  required_report_sections : List String := []

/-- One file on disk: its raw text, and the result of `json.loads` on that
text (`none` when the text is not valid JSON). -/
structure FileEntry where
  text : String
  json : Option JVal

/-- The filesystem visible to the gate: a map from path strings to files. -/
abbrev FS : Type := String → Option FileEntry

/-- Override the file stored at path `p`. -/
def setFile (fs : FS) (p : String) (e : FileEntry) : FS :=
  fun q => if q = p then some e else fs q

/-- Python `pathlib`'s `/` operator on string paths. -/
def joinPath (a b : String) : String := a ++ "/" ++ b

/-- `file_exists` from the source: `(out_dir / rel).exists()`. -/
def file_exists (fs : FS) (out_dir rel : String) : Bool :=
  (fs (joinPath out_dir rel)).isSome

/-- `Path.read_text`: raises `FileNotFoundError` when the path is absent. -/
def read_text (fs : FS) (p : String) : Except PyErr String :=
  match fs p with
  | none => Except.error (PyErr.fileNotFound p)
  | some e => Except.ok e.text

/-- `read_json` from the source: `json.loads(path.read_text())`; raises when
the file is absent or its text is not valid JSON. -/
def read_json (fs : FS) (p : String) : Except PyErr JVal :=
  match fs p with
  | none => Except.error (PyErr.fileNotFound p)
  | some e =>
    match e.json with
    | none => Except.error (PyErr.jsonDecode p)
    | some j => Except.ok j

/-- Does `needle` occur at the head of `hay`? (list-of-chars form). -/
def headMatch : List Char → List Char → Bool
  | _, [] => true
  | [], _ :: _ => false
  | a :: as, b :: bs => a = b && headMatch as bs

/-- Does `needle` occur anywhere in `hay`? (Python `needle in hay`). -/
def hasInfixL (needle : List Char) : List Char → Bool
  | [] => needle.isEmpty
  | c :: t => headMatch (c :: t) needle || hasInfixL needle t

/-- Python `sub in s` on strings. -/
def strContains (s sub : String) : Bool := hasInfixL sub.data s.data

/-- `report_missing_sections` from the source: the required section strings
whose lower-cased form does not occur in the lower-cased report text. -/
def report_missing_sections (required : List String) (md_text : String) : List String :=
  required.filter (fun sec => !strContains (pyLower md_text) (pyLower sec))

/-- The failure/warning messages the gate can append (the source formats
these as f-strings; only their identity and payload matter here). -/
inductive Msg : Type where
  | missingOutputs : List String → Msg
  | policyPreFail : JVal → JVal → Msg
  | policyPostFail : JVal → JVal → Msg
  | signerNotAllowed : String → List String → Msg
  | sigMissing : Msg
  | notAList : Msg
  | criticalPresent : Msg
  | highExceed : Nat → Int → Msg
  | mediumExceed : Nat → Int → Msg
  | missingSections : List String → Msg

/-- Observable behaviour of one run: filesystem probes (`readEv` records
every `exists()`, `read_text` and `read_json` call with its path) and the
lines printed by the source. -/
inductive Event : Type where
  | readEv : String → Event
  | printDisabled : String → Event
  | printSummary : String → List (String × Nat) → List Msg → List Msg → Event
  | printFail : String → Nat → Event
  | printPass : Event

/-- `summarize` from the source: prints the mode name, one row per
`SEV_ORDER` entry with `counts.get(s, 0)`, then warnings and failures. -/
def summarize (mode : String) (counts : List (String × Nat))
    (warns fails : List Msg) : Event :=
  Event.printSummary mode (SEV_ORDER.map (fun s => (s, cget counts s))) warns fails

def PASS : Nat := 0
def E_POLICY_FAIL : Nat := 10
def E_CRITICAL_PRESENT : Nat := 11
def E_HIGH_THRESHOLD : Nat := 12
def E_MANIFEST_SIGN : Nat := 13
def E_REQUIRED_OUTPUTS : Nat := 14
def E_REPORT_SECTIONS : Nat := 15
def E_SECRETS_IN_OUTPUTS : Nat := 16

/-- Steps 4 and 5 of `gate_one_mode` (findings severity gates and report
sections), entered after the manifest-signing step; `evs0` is the event
trace accumulated so far. -/
def gate_findings_sections (rg : ReleaseGate) (mode : String) (out_dir : String) (fs : FS)
    (evs0 : List Event) : List Event × Except PyErr Nat :=
  let evs := evs0 ++ [Event.readEv (joinPath out_dir "extracted_findings.json")]
  match read_json fs (joinPath out_dir "extracted_findings.json") with
  | Except.error e => (evs, Except.error e)
  | Except.ok findings =>
    match findings with
    | JVal.arr items =>
      match count_severities items with
      | Except.error e => (evs, Except.error e)
      | Except.ok counts =>
        if rg.fail_on_critical = true ∧ 0 < cget counts "CRITICAL" then
          (evs ++ [summarize mode counts [] [Msg.criticalPresent]],
           Except.ok E_CRITICAL_PRESENT)
        else if rg.max_high_findings < (cget counts "HIGH" : Int) then
          (evs ++ [summarize mode counts []
              [Msg.highExceed (cget counts "HIGH") rg.max_high_findings]],
           Except.ok E_HIGH_THRESHOLD)
        else
          let warns := if rg.max_medium_findings < (cget counts "MEDIUM" : Int) then
              [Msg.mediumExceed (cget counts "MEDIUM") rg.max_medium_findings]
            else []
          let evs2 := evs ++ [Event.readEv (joinPath out_dir "consolidated_security_report.md")]
          match read_text fs (joinPath out_dir "consolidated_security_report.md") with
          | Except.error e => (evs2, Except.error e)
          | Except.ok md =>
            let missing_sections := report_missing_sections rg.required_report_sections md
            if missing_sections.isEmpty then
              (evs2 ++ [summarize mode counts warns []], Except.ok PASS)
            else
              (evs2 ++ [summarize mode counts warns [Msg.missingSections missing_sections]],
               Except.ok E_REPORT_SECTIONS)
    | _ =>
      (evs ++ [summarize mode zeroCounts [] [Msg.notAList]], Except.ok E_REQUIRED_OUTPUTS)

/-- `gate_one_mode` from the source: evaluate one mode's artifact bundle
against the policy, returning the event trace and the exit code (or the
unhandled exception). -/
def gate_one_mode (rg : ReleaseGate) (mode : String) (outputs_base : String) (fs : FS) :
    List Event × Except PyErr Nat :=
  if !rg.enabled then
    ([Event.printDisabled mode], Except.ok PASS)
  else
    let out_dir := joinPath outputs_base mode
    let reqEvs := rg.required_files.map (fun f => Event.readEv (joinPath out_dir f))
    let missing_files := rg.required_files.filter (fun f => !file_exists fs out_dir f)
    if missing_files.isEmpty then
      let evs1 := reqEvs ++ [Event.readEv (joinPath out_dir "policy_report.json")]
      match read_json fs (joinPath out_dir "policy_report.json") with
      | Except.error e => (evs1, Except.error e)
      | Except.ok pre =>
        let evs2 := evs1 ++ [Event.readEv (joinPath out_dir "policy_report_post.json")]
        match read_json fs (joinPath out_dir "policy_report_post.json") with
        | Except.error e => (evs2, Except.error e)
        | Except.ok post =>
          match pre with
          | JVal.obj preKvs =>
            if !isStrEq (dget preKvs "status" JVal.null) "PASS" then
              (evs2 ++ [summarize mode zeroCounts []
                  [Msg.policyPreFail (dget preKvs "status" JVal.null)
                    (dget preKvs "hard_fail_hits" JVal.null)]],
               Except.ok E_POLICY_FAIL)
            else
              match post with
              | JVal.obj postKvs =>
                if !isStrEq (dget postKvs "status" JVal.null) "PASS" then
                  (evs2 ++ [summarize mode zeroCounts []
                      [Msg.policyPostFail (dget postKvs "status" JVal.null)
                        (dget postKvs "hard_fail_hits" JVal.null)]],
                   Except.ok E_SECRETS_IN_OUTPUTS)
                else
                  let evs3 := evs2 ++ [Event.readEv (joinPath out_dir "manifest_signer.txt")]
                  match read_text fs (joinPath out_dir "manifest_signer.txt") with
                  | Except.error e => (evs3, Except.error e)
                  | Except.ok signerRaw =>
                    let signer := pyStrip signerRaw
                    if rg.require_signed_manifest then
                      let allowed := rg.allowed_signers.map pyLower
                      if !allowed.contains (pyLower signer) then
                        (evs3 ++ [summarize mode zeroCounts []
                            [Msg.signerNotAllowed signer allowed]],
                         Except.ok E_MANIFEST_SIGN)
                      else
                        let evs4 := evs3 ++ [Event.readEv (joinPath out_dir "manifest.sig")]
                        if !(fs (joinPath out_dir "manifest.sig")).isSome then
                          (evs4 ++ [summarize mode zeroCounts [] [Msg.sigMissing]],
                           Except.ok E_MANIFEST_SIGN)
                        else
                          gate_findings_sections rg mode out_dir fs evs4
                    else
                      gate_findings_sections rg mode out_dir fs evs3
              | _ => (evs2, Except.error PyErr.attributeError)
          | _ => (evs2, Except.error PyErr.attributeError)
    else
      (reqEvs ++ [summarize mode zeroCounts [] [Msg.missingOutputs missing_files]],
       Except.ok E_REQUIRED_OUTPUTS)

/-- The fail-fast loop of `main`: run `gate_one_mode` per requested mode in
order; the first non-PASS exit code (or unhandled exception) stops the run;
if every mode passes, print the overall PASS line and exit 0. -/
def run_modes (rg : ReleaseGate) (outputs_base : String) (fs : FS) :
    List String → List Event × Except PyErr Nat
  | [] => ([Event.printPass], Except.ok PASS)
  | m :: rest =>
    match gate_one_mode rg m outputs_base fs with
    | (evs, Except.error e) => (evs, Except.error e)
    | (evs, Except.ok code) =>
      if code = PASS then
        match run_modes rg outputs_base fs rest with
        | (evs2, r) => (evs ++ evs2, r)
      else
        (evs ++ [Event.printFail m code], Except.ok code)

/-- `main` from the source, after argument/policy parsing: resolve the mode
selector (`"both"` expands to `["tokyo", "ny"]` in that order) and run the
fail-fast loop. -/
def mainRun (rg : ReleaseGate) (modeArg : String) (outputs_base : String) (fs : FS) :
    List Event × Except PyErr Nat :=
  let modes := if modeArg = "both" then ["tokyo", "ny"] else [modeArg]
  run_modes rg outputs_base fs modes

/-- A mode output directory containing all six artifacts, configured so
that every validator passes under the default policy. -/
def cleanDir (dir : String) : FS := fun p =>
  if p = joinPath dir "policy_report.json" then
    some ⟨"\x7b\"status\": \"PASS\"\x7d", some (JVal.obj [("status", JVal.str "PASS")])⟩
  else if p = joinPath dir "policy_report_post.json" then
    some ⟨"\x7b\"status\": \"PASS\"\x7d", some (JVal.obj [("status", JVal.str "PASS")])⟩
  else if p = joinPath dir "manifest_signer.txt" then
    some ⟨"minisign\n", none⟩
  else if p = joinPath dir "manifest.sig" then
    some ⟨"blob", none⟩
  else if p = joinPath dir "extracted_findings.json" then
    some ⟨"[]", some (JVal.arr [])⟩
  else if p = joinPath dir "consolidated_security_report.md" then
    some ⟨"# Report\n", none⟩
  else none

/-- An outputs tree with clean `tokyo` and `ny` subdirectories. -/
def fsDemo : FS := fun p =>
  match cleanDir (joinPath "outputs" "tokyo") p with
  | some e => some e
  | none => cleanDir (joinPath "outputs" "ny") p

/-- C2: whenever some path listed in the policy's `required_files` does not
exist under the mode's output directory, the gate returns exit code 14 and
its whole observable behaviour is the `required_files` existence probes
followed by one summary whose only failure message is the missing-outputs
message: no later validator reads its artifact, performs its check, or
emits a failure message. -/
theorem required_files_short_circuit (rg : ReleaseGate) (mode outputs_base : String) (fs : FS)
    (henabled : rg.enabled = true)
    (hmiss : ∃ f ∈ rg.required_files,
      file_exists fs (joinPath outputs_base mode) f = false) :
    gate_one_mode rg mode outputs_base fs =
      (rg.required_files.map
          (fun f => Event.readEv (joinPath (joinPath outputs_base mode) f)) ++
        [summarize mode zeroCounts []
          [Msg.missingOutputs (rg.required_files.filter
            (fun f => !file_exists fs (joinPath outputs_base mode) f))]],
       Except.ok E_REQUIRED_OUTPUTS) := by
  obtain ⟨f, hf, hne⟩ := hmiss
  have hfmem : f ∈ rg.required_files.filter
      (fun g => !file_exists fs (joinPath outputs_base mode) g) :=
    List.mem_filter.mpr ⟨hf, by simp [hne]⟩
  have hm : (rg.required_files.filter
      (fun g => !file_exists fs (joinPath outputs_base mode) g)).isEmpty = false := by
    cases hl : rg.required_files.filter
        (fun g => !file_exists fs (joinPath outputs_base mode) g) with
    | nil => rw [hl] at hfmem; simp at hfmem
    | cons a l => simp
  simp only [gate_one_mode, henabled, Bool.not_true, Bool.false_eq_true, if_false, hm]

theorem required_files_short_circuit_witness :
    gate_one_mode { required_files := ["a.json"] } "tokyo" "outputs" fsDemo =
      ([Event.readEv (joinPath (joinPath "outputs" "tokyo") "a.json"),
        summarize "tokyo" zeroCounts [] [Msg.missingOutputs ["a.json"]]],
       Except.ok E_REQUIRED_OUTPUTS) :=
  required_files_short_circuit { required_files := ["a.json"] } "tokyo" "outputs" fsDemo
    rfl ⟨"a.json", by simp, by rfl⟩

/-- Is this event a filesystem probe? -/
def isReadEv : Event → Bool
  | Event.readEv _ => true
  | _ => false

/-- Is this event a printed run summary? -/
def isSummaryEv : Event → Bool
  | Event.printSummary _ _ _ _ => true
  | _ => false

theorem gfs_shape (rg : ReleaseGate) (mode out_dir : String) (fs : FS) (evs0 : List Event)
    (code : Nat) (h : (gate_findings_sections rg mode out_dir fs evs0).2 = Except.ok code) :
    ∃ pre counts warns fails,
      (gate_findings_sections rg mode out_dir fs evs0).1 =
        evs0 ++ pre ++ [summarize mode counts warns fails] ∧
      ∀ e ∈ pre, isReadEv e = true := by
  simp only [gate_findings_sections] at h ⊢
  rcases hj : read_json fs (joinPath out_dir "extracted_findings.json") with e | findings <;>
    simp only [hj] at h ⊢
  · simp at h
  cases findings with
  | arr items =>
    rcases hc : count_severities items with e | counts <;> simp only [hc] at h ⊢
    · simp at h
    by_cases hcrit : rg.fail_on_critical = true ∧ 0 < cget counts "CRITICAL" <;>
      simp only [hcrit, if_true, if_false] at h ⊢
    · exact ⟨[Event.readEv (joinPath out_dir "extracted_findings.json")], counts, [],
        [Msg.criticalPresent], by simp, by simp [isReadEv]⟩
    by_cases hhigh : rg.max_high_findings < (cget counts "HIGH" : Int) <;>
      simp only [hhigh, if_true, if_false] at h ⊢
    · exact ⟨[Event.readEv (joinPath out_dir "extracted_findings.json")], counts, [],
        [Msg.highExceed (cget counts "HIGH") rg.max_high_findings], by simp, by simp [isReadEv]⟩
    rcases hm : read_text fs (joinPath out_dir "consolidated_security_report.md") with e | md <;>
      simp only [hm] at h ⊢
    · simp at h
    by_cases hsec : (report_missing_sections rg.required_report_sections md).isEmpty = true <;>
      simp only [hsec, Bool.false_eq_true, Bool.not_eq_true, if_true, if_false] at h ⊢
    · exact ⟨[Event.readEv (joinPath out_dir "extracted_findings.json"),
        Event.readEv (joinPath out_dir "consolidated_security_report.md")], counts,
        (if rg.max_medium_findings < (cget counts "MEDIUM" : Int) then
          [Msg.mediumExceed (cget counts "MEDIUM") rg.max_medium_findings] else []), [],
        by simp, by simp [isReadEv]⟩
    · exact ⟨[Event.readEv (joinPath out_dir "extracted_findings.json"),
        Event.readEv (joinPath out_dir "consolidated_security_report.md")], counts,
        (if rg.max_medium_findings < (cget counts "MEDIUM" : Int) then
          [Msg.mediumExceed (cget counts "MEDIUM") rg.max_medium_findings] else []),
        [Msg.missingSections (report_missing_sections rg.required_report_sections md)],
        by simp, by simp [isReadEv]⟩
  | null => exact ⟨[Event.readEv (joinPath out_dir "extracted_findings.json")], zeroCounts, [],
      [Msg.notAList], by simp, by simp [isReadEv]⟩
  | bool b => exact ⟨[Event.readEv (joinPath out_dir "extracted_findings.json")], zeroCounts, [],
      [Msg.notAList], by simp, by simp [isReadEv]⟩
  | num n => exact ⟨[Event.readEv (joinPath out_dir "extracted_findings.json")], zeroCounts, [],
      [Msg.notAList], by simp, by simp [isReadEv]⟩
  | str s => exact ⟨[Event.readEv (joinPath out_dir "extracted_findings.json")], zeroCounts, [],
      [Msg.notAList], by simp, by simp [isReadEv]⟩
  | obj kvs => exact ⟨[Event.readEv (joinPath out_dir "extracted_findings.json")], zeroCounts, [],
      [Msg.notAList], by simp, by simp [isReadEv]⟩

theorem reqEvs_read (out_dir : String) (l : List String) :
    ∀ e ∈ l.map (fun f => Event.readEv (joinPath out_dir f)), isReadEv e = true := by
  intro e he
  obtain ⟨f, _, rfl⟩ := List.mem_map.mp he
  rfl

theorem gate_shape (rg : ReleaseGate) (mode base : String) (fs : FS) (code : Nat)
    (henabled : rg.enabled = true)
    (h : (gate_one_mode rg mode base fs).2 = Except.ok code) :
    ∃ pre counts warns fails,
      (gate_one_mode rg mode base fs).1 = pre ++ [summarize mode counts warns fails] ∧
      ∀ e ∈ pre, isReadEv e = true := by
  simp only [gate_one_mode, henabled, Bool.not_true, Bool.false_eq_true, if_false] at h ⊢
  cases hf : (rg.required_files.filter
      (fun f => !file_exists fs (joinPath base mode) f)).isEmpty <;>
    simp only [hf, Bool.false_eq_true, eq_self_iff_true, if_true, if_false] at h ⊢
  case false =>
    exact ⟨rg.required_files.map (fun f => Event.readEv (joinPath (joinPath base mode) f)),
      zeroCounts, [], [Msg.missingOutputs (rg.required_files.filter
        (fun f => !file_exists fs (joinPath base mode) f))], rfl, reqEvs_read _ _⟩
  case true =>
  rcases hpre : read_json fs (joinPath (joinPath base mode) "policy_report.json") with e | pre <;>
    simp only [hpre] at h ⊢
  · simp at h
  rcases hpost : read_json fs (joinPath (joinPath base mode) "policy_report_post.json")
      with e | post <;> simp only [hpost] at h ⊢
  · simp at h
  cases pre with
  | obj preKvs =>
    cases hps : isStrEq (dget preKvs "status" JVal.null) "PASS" <;>
      simp only [hps, Bool.not_true, Bool.not_false, Bool.false_eq_true, if_true, if_false] at h ⊢
    case false =>
      refine ⟨rg.required_files.map (fun f => Event.readEv (joinPath (joinPath base mode) f)) ++
        [Event.readEv (joinPath (joinPath base mode) "policy_report.json")] ++
        [Event.readEv (joinPath (joinPath base mode) "policy_report_post.json")],
        zeroCounts, [], _, rfl, ?_⟩
      intro e he
      rcases List.mem_append.mp he with h1 | h2
      · rcases List.mem_append.mp h1 with h3 | h4
        · exact reqEvs_read _ _ e h3
        · simp at h4; subst h4; rfl
      · simp at h2; subst h2; rfl
    case true =>
    cases post with
    | obj postKvs =>
      cases hqs : isStrEq (dget postKvs "status" JVal.null) "PASS" <;>
        simp only [hqs, Bool.not_true, Bool.not_false, Bool.false_eq_true, if_true, if_false] at h ⊢
      case false =>
        refine ⟨rg.required_files.map (fun f => Event.readEv (joinPath (joinPath base mode) f)) ++
          [Event.readEv (joinPath (joinPath base mode) "policy_report.json")] ++
          [Event.readEv (joinPath (joinPath base mode) "policy_report_post.json")],
          zeroCounts, [], _, rfl, ?_⟩
        intro e he
        rcases List.mem_append.mp he with h1 | h2
        · rcases List.mem_append.mp h1 with h3 | h4
          · exact reqEvs_read _ _ e h3
          · simp at h4; subst h4; rfl
        · simp at h2; subst h2; rfl
      case true =>
      rcases hsg : read_text fs (joinPath (joinPath base mode) "manifest_signer.txt")
          with e | signerRaw <;> simp only [hsg] at h ⊢
      · simp at h
      have hAllRead3 : ∀ e ∈ rg.required_files.map
          (fun f => Event.readEv (joinPath (joinPath base mode) f)) ++
          [Event.readEv (joinPath (joinPath base mode) "policy_report.json")] ++
          [Event.readEv (joinPath (joinPath base mode) "policy_report_post.json")] ++
          [Event.readEv (joinPath (joinPath base mode) "manifest_signer.txt")],
          isReadEv e = true := by
        intro e he
        rcases List.mem_append.mp he with h1 | h2
        · rcases List.mem_append.mp h1 with h3 | h4
          · rcases List.mem_append.mp h3 with h5 | h6
            · exact reqEvs_read _ _ e h5
            · simp at h6; subst h6; rfl
          · simp at h4; subst h4; rfl
        · simp at h2; subst h2; rfl
      cases hrq : rg.require_signed_manifest <;>
        simp only [hrq, Bool.false_eq_true, eq_self_iff_true, if_true, if_false] at h ⊢
      case false =>
        obtain ⟨pre2, c, w, fl, heq, hr⟩ := gfs_shape rg mode (joinPath base mode) fs _ code h
        refine ⟨_ ++ pre2, c, w, fl, by rw [heq, List.append_assoc], ?_⟩
        exact fun e he => (List.forall_mem_append.mpr ⟨hAllRead3, hr⟩) e he
      case true =>
      cases hal : (rg.allowed_signers.map pyLower).contains (pyLower (pyStrip signerRaw)) <;>
        simp only [hal, Bool.not_true, Bool.not_false, Bool.false_eq_true, if_true, if_false] at h ⊢
      case false =>
        exact ⟨_, zeroCounts, [], _, rfl, hAllRead3⟩
      case true =>
      cases hsig : (fs (joinPath (joinPath base mode) "manifest.sig")).isSome <;>
        simp only [hsig, Bool.not_true, Bool.not_false, Bool.false_eq_true, if_true, if_false] at h ⊢
      case false =>
        refine ⟨_ ++ [Event.readEv (joinPath (joinPath base mode) "manifest.sig")],
          zeroCounts, [], _, by rw [List.append_assoc], ?_⟩
        intro e he
        rcases List.mem_append.mp he with h1 | h2
        · exact hAllRead3 e h1
        · simp at h2; subst h2; rfl
      case true =>
        obtain ⟨pre2, c, w, fl, heq, hr⟩ := gfs_shape rg mode (joinPath base mode) fs _ code h
        refine ⟨(_ ++ [Event.readEv (joinPath (joinPath base mode) "manifest.sig")]) ++ pre2,
          c, w, fl, by rw [heq], ?_⟩
        refine List.forall_mem_append.mpr ⟨?_, hr⟩
        intro e he
        rcases List.mem_append.mp he with h1 | h2
        · exact hAllRead3 e h1
        · simp at h2; subst h2; rfl
    | null => simp at h
    | bool b => simp at h
    | num n => simp at h
    | str s => simp at h
    | arr xs => simp at h
  | null => simp at h
  | bool b => simp at h
  | num n => simp at h
  | str s => simp at h
  | arr xs => simp at h

theorem isSummaryEv_of_read (e : Event) (h : isReadEv e = true) : isSummaryEv e = false := by
  cases e <;> simp [isReadEv, isSummaryEv] at h ⊢

/-- C9 counterexample: for a disabled mode (`enabled: false`) the gate
returns PASS after printing only the one-line disabled message — no
structured summary with the severity-count table is written, contradicting
the claim that a summary is written for every outcome including the
`enabled=false` short-circuit. -/
theorem disabled_mode_no_summary_cex :
    (gate_one_mode { enabled := false } "tokyo" "outputs" fsDemo).2 = Except.ok PASS ∧
    (gate_one_mode { enabled := false } "tokyo" "outputs" fsDemo).1.countP isSummaryEv = 0 ∧
    (gate_one_mode { enabled := false } "tokyo" "outputs" fsDemo).1 =
      [Event.printDisabled "tokyo"] :=
  ⟨rfl, rfl, rfl⟩

/-- C9 (amended): for every evaluated mode with `enabled` true whose gate
evaluation terminates with an exit code (rather than an unhandled
exception), exactly one structured run summary is written, and every
summary written carries that mode's name and the full six-row
severity-count table.  (When `enabled` is false, only a one-line disabled
message is printed and no summary is written.) -/
theorem summary_once_per_mode_amended (rg : ReleaseGate) (mode base : String) (fs : FS)
    (code : Nat) (henabled : rg.enabled = true)
    (hok : (gate_one_mode rg mode base fs).2 = Except.ok code) :
    (gate_one_mode rg mode base fs).1.countP isSummaryEv = 1 ∧
    ∀ m rows warns fails,
      Event.printSummary m rows warns fails ∈ (gate_one_mode rg mode base fs).1 →
      m = mode ∧ rows.map Prod.fst = SEV_ORDER := by
  obtain ⟨pre, counts, warns, fails, heq, hread⟩ := gate_shape rg mode base fs code henabled hok
  rw [heq]
  constructor
  · rw [List.countP_append]
    have h0 : pre.countP isSummaryEv = 0 := by
      rw [List.countP_eq_zero]
      intro e he
      simp [isSummaryEv_of_read e (hread e he)]
    rw [h0]
    rfl
  · intro m rows w f hmem
    rcases List.mem_append.mp hmem with h1 | h2
    · have hr := hread _ h1
      simp [isReadEv] at hr
    · simp [summarize] at h2
      obtain ⟨hm, hrows, _, _⟩ := h2
      refine ⟨hm, ?_⟩
      rw [hrows]
      rfl

theorem summary_once_per_mode_amended_witness :
    (gate_one_mode {} "tokyo" "outputs" fsDemo).1.countP isSummaryEv = 1 ∧
    ∀ m rows warns fails,
      Event.printSummary m rows warns fails ∈ (gate_one_mode {} "tokyo" "outputs" fsDemo).1 →
      m = "tokyo" ∧ rows.map Prod.fst = SEV_ORDER :=
  summary_once_per_mode_amended {} "tokyo" "outputs" fsDemo PASS rfl rfl

/-- `fsDemo` with the tokyo pre-processing policy report failing. -/
def fsPreFail : FS := fun p =>
  if p = joinPath (joinPath "outputs" "tokyo") "policy_report.json" then
    some ⟨"\x7b\"status\": \"FAIL\"\x7d", some (JVal.obj [("status", JVal.str "FAIL")])⟩
  else fsDemo p

/-- `fsPreFail` with the tokyo post-processing policy report also missing. -/
def fsPreFailNoPost : FS := fun p =>
  if p = joinPath (joinPath "outputs" "tokyo") "policy_report_post.json" then none
  else fsPreFail p

/-- C10: once the required-files check passes, the gate reads and parses
both `policy_report.json` and `policy_report_post.json` before checking the
pre report's status.  Consequently, with a failing pre status: if the post
report is missing or unparseable the run aborts with that unhandled read
error instead of exit 10, and only when the post report parses does the
gate return exit 10; the post-report probe is in the trace in either case. -/
theorem policy_post_read_before_pre_check (rg : ReleaseGate) (mode base : String) (fs : FS)
    (preKvs : List (String × JVal))
    (henabled : rg.enabled = true)
    (hreq : ∀ f ∈ rg.required_files, file_exists fs (joinPath base mode) f = true)
    (hpre : read_json fs (joinPath (joinPath base mode) "policy_report.json") =
      Except.ok (JVal.obj preKvs))
    (hstatus : isStrEq (dget preKvs "status" JVal.null) "PASS" = false) :
    (∀ e, read_json fs (joinPath (joinPath base mode) "policy_report_post.json") =
        Except.error e →
      (gate_one_mode rg mode base fs).2 = Except.error e) ∧
    (∀ post, read_json fs (joinPath (joinPath base mode) "policy_report_post.json") =
        Except.ok post →
      (gate_one_mode rg mode base fs).2 = Except.ok E_POLICY_FAIL) ∧
    Event.readEv (joinPath (joinPath base mode) "policy_report_post.json") ∈
      (gate_one_mode rg mode base fs).1 := by
  have hfil : rg.required_files.filter (fun f => !file_exists fs (joinPath base mode) f) = [] := by
    rw [List.filter_eq_nil_iff]
    intro a ha
    simp [hreq a ha]
  refine ⟨?_, ?_, ?_⟩
  · intro e he
    simp only [gate_one_mode, henabled, Bool.not_true, Bool.false_eq_true, if_false, hfil,
      List.isEmpty_nil, eq_self_iff_true, if_true, hpre, he, hstatus, Bool.not_false]
  · intro post hp
    simp only [gate_one_mode, henabled, Bool.not_true, Bool.false_eq_true, if_false, hfil,
      List.isEmpty_nil, eq_self_iff_true, if_true, hpre, hp, hstatus, Bool.not_false]
  · rcases hpost : read_json fs (joinPath (joinPath base mode) "policy_report_post.json")
        with e | post <;>
      simp only [gate_one_mode, henabled, Bool.not_true, Bool.false_eq_true, if_false, hfil,
        List.isEmpty_nil, eq_self_iff_true, if_true, hpre, hpost, hstatus, Bool.not_false] <;>
      simp

theorem policy_post_read_before_pre_check_witness :
    (gate_one_mode {} "tokyo" "outputs" fsPreFailNoPost).2 =
      Except.error (PyErr.fileNotFound
        (joinPath (joinPath "outputs" "tokyo") "policy_report_post.json")) ∧
    (gate_one_mode {} "tokyo" "outputs" fsPreFail).2 = Except.ok E_POLICY_FAIL :=
  ⟨(policy_post_read_before_pre_check {} "tokyo" "outputs" fsPreFailNoPost
      [("status", JVal.str "FAIL")] rfl (by simp) rfl rfl).1 _ rfl,
   (policy_post_read_before_pre_check {} "tokyo" "outputs" fsPreFail
      [("status", JVal.str "FAIL")] rfl (by simp) rfl rfl).2.1 _ rfl⟩

theorem str_data_append (a b : String) : (a ++ b).data = a.data ++ b.data := by
  cases a; cases b; rfl

theorem str_append_left_cancel (a b c : String) (h : a ++ b = a ++ c) : b = c := by
  have h2 : (a ++ b).data = (a ++ c).data := by rw [h]
  rw [str_data_append, str_data_append] at h2
  have h3 : b.data = c.data := List.append_cancel_left h2
  cases b; cases c
  exact congrArg String.mk h3

theorem joinPath_inj_right (d a b : String) (h : joinPath d a = joinPath d b) : a = b :=
  str_append_left_cancel (d ++ "/") a b h

theorem joinPath_ne (d a b : String) (hab : a ≠ b) : joinPath d a ≠ joinPath d b :=
  fun h => hab (joinPath_inj_right d a b h)

theorem tokyo_ny_path_ne (base r1 r2 : String) :
    joinPath (joinPath base "tokyo") r1 ≠ joinPath (joinPath base "ny") r2 := by
  intro he
  have h2 : (joinPath (joinPath base "tokyo") r1).data =
      (joinPath (joinPath base "ny") r2).data := by rw [he]
  simp only [joinPath, str_data_append, List.append_assoc] at h2
  have h3 := List.append_cancel_left h2
  have h4 := List.append_cancel_left h3
  simp at h4

theorem gfs_ne_sign (rg : ReleaseGate) (mode out_dir : String) (fs : FS) (evs0 : List Event) :
    (gate_findings_sections rg mode out_dir fs evs0).2 ≠ Except.ok E_MANIFEST_SIGN := by
  intro h
  simp only [gate_findings_sections] at h
  repeat' split at h
  all_goals simp_all [PASS, E_CRITICAL_PRESENT, E_HIGH_THRESHOLD, E_REPORT_SECTIONS,
    E_REQUIRED_OUTPUTS, E_MANIFEST_SIGN]

theorem gfs_no_new_reads (rg : ReleaseGate) (mode out_dir : String) (fs : FS)
    (evs0 : List Event) (p : String)
    (h : Event.readEv p ∈ (gate_findings_sections rg mode out_dir fs evs0).1) :
    Event.readEv p ∈ evs0 ∨ p = joinPath out_dir "extracted_findings.json" ∨
      p = joinPath out_dir "consolidated_security_report.md" := by
  simp only [gate_findings_sections] at h
  repeat' split at h
  all_goals simp_all [summarize, List.mem_append]
  all_goals tauto

theorem gate_reads_cases (rg : ReleaseGate) (mode base : String) (fs : FS) (p : String)
    (h : Event.readEv p ∈ (gate_one_mode rg mode base fs).1) :
    (∃ f ∈ rg.required_files, joinPath (joinPath base mode) f = p) ∨
    p = joinPath (joinPath base mode) "policy_report.json" ∨
    p = joinPath (joinPath base mode) "policy_report_post.json" ∨
    p = joinPath (joinPath base mode) "manifest_signer.txt" ∨
    (rg.require_signed_manifest = true ∧ p = joinPath (joinPath base mode) "manifest.sig") ∨
    p = joinPath (joinPath base mode) "extracted_findings.json" ∨
    p = joinPath (joinPath base mode) "consolidated_security_report.md" := by
  simp only [gate_one_mode] at h
  repeat' split at h
  all_goals
    try rcases gfs_no_new_reads _ _ _ _ _ _ h with h | h | h
  all_goals simp_all [summarize, List.mem_append, List.mem_map]
  all_goals aesop

theorem file_exists_setFile_indep (fs : FS) (p : String) (e1 e2 : FileEntry) (od f : String) :
    file_exists (setFile fs p e1) od f = file_exists (setFile fs p e2) od f := by
  by_cases hq : joinPath od f = p <;> simp [file_exists, setFile, hq]

theorem read_json_setFile_ne (fs : FS) (p : String) (e : FileEntry) (q : String) (h : q ≠ p) :
    read_json (setFile fs p e) q = read_json fs q := by
  simp [read_json, setFile, h]

theorem read_text_setFile_ne (fs : FS) (p : String) (e : FileEntry) (q : String) (h : q ≠ p) :
    read_text (setFile fs p e) q = read_text fs q := by
  simp [read_text, setFile, h]

theorem read_text_setFile_self (fs : FS) (p : String) (e : FileEntry) :
    read_text (setFile fs p e) p = Except.ok e.text := by
  simp [read_text, setFile]

/-- `fsDemo` with the tokyo signer file removed. -/
def fsNoSigner : FS := fun p =>
  if p = joinPath (joinPath "outputs" "tokyo") "manifest_signer.txt" then none else fsDemo p

/-- C4 counterexample: with `require_signed_manifest: false` the gate still
reads `manifest_signer.txt` unconditionally (its probe appears in the
trace), and its absence aborts the run with an unhandled
`FileNotFoundError` — the outcome is not unaffected by the file's absence,
contradicting the claim that the file is never read.  (With the file
present the same configuration passes.) -/
theorem signer_read_when_not_required_cex :
    (gate_one_mode { require_signed_manifest := false } "tokyo" "outputs" fsNoSigner).2 =
      Except.error (PyErr.fileNotFound
        (joinPath (joinPath "outputs" "tokyo") "manifest_signer.txt")) ∧
    gate_one_mode { require_signed_manifest := false } "tokyo" "outputs" fsDemo =
      ([Event.readEv (joinPath (joinPath "outputs" "tokyo") "policy_report.json"),
        Event.readEv (joinPath (joinPath "outputs" "tokyo") "policy_report_post.json"),
        Event.readEv (joinPath (joinPath "outputs" "tokyo") "manifest_signer.txt"),
        Event.readEv (joinPath (joinPath "outputs" "tokyo") "extracted_findings.json"),
        Event.readEv (joinPath (joinPath "outputs" "tokyo") "consolidated_security_report.md"),
        summarize "tokyo" zeroCounts [] []], Except.ok PASS) :=
  ⟨rfl, rfl⟩

/-- C4 (amended): with `require_signed_manifest` false the signer validator
checks are skipped: the gate can never return exit code 13, never probes
`manifest.sig` (unless that name is itself listed in `required_files`), and
the content of `manifest_signer.txt` has no effect on the outcome.  However
the file is still read, so its absence aborts the run with an unhandled
error rather than leaving the outcome unaffected. -/
theorem signer_check_skipped_amended (rg : ReleaseGate) (mode base : String) (fs : FS)
    (hreq : rg.require_signed_manifest = false) :
    (gate_one_mode rg mode base fs).2 ≠ Except.ok E_MANIFEST_SIGN ∧
    ("manifest.sig" ∉ rg.required_files →
      Event.readEv (joinPath (joinPath base mode) "manifest.sig") ∉
        (gate_one_mode rg mode base fs).1) ∧
    (∀ e1 e2 : FileEntry,
      gate_one_mode rg mode base
        (setFile fs (joinPath (joinPath base mode) "manifest_signer.txt") e1) =
      gate_one_mode rg mode base
        (setFile fs (joinPath (joinPath base mode) "manifest_signer.txt") e2)) := by
  refine ⟨?_, ?_, ?_⟩
  · intro h
    simp only [gate_one_mode, hreq, Bool.false_eq_true, if_false] at h
    repeat' split at h
    all_goals first
      | exact gfs_ne_sign _ _ _ _ _ h
      | simp_all [PASS, E_POLICY_FAIL, E_SECRETS_IN_OUTPUTS, E_REQUIRED_OUTPUTS, E_MANIFEST_SIGN]
  · intro hnot hmem
    rcases gate_reads_cases rg mode base fs _ hmem with
      ⟨f, hf, hp⟩ | hp | hp | hp | ⟨hrq, hp⟩ | hp | hp
    · exact hnot ((joinPath_inj_right _ _ _ hp) ▸ hf)
    · exact joinPath_ne _ _ _ (by decide) hp.symm
    · exact joinPath_ne _ _ _ (by decide) hp.symm
    · exact joinPath_ne _ _ _ (by decide) hp.symm
    · rw [hreq] at hrq; exact Bool.noConfusion hrq
    · exact joinPath_ne _ _ _ (by decide) hp.symm
    · exact joinPath_ne _ _ _ (by decide) hp.symm
  · intro e1 e2
    have hne1 : joinPath (joinPath base mode) "policy_report.json" ≠
        joinPath (joinPath base mode) "manifest_signer.txt" := joinPath_ne _ _ _ (by decide)
    have hne2 : joinPath (joinPath base mode) "policy_report_post.json" ≠
        joinPath (joinPath base mode) "manifest_signer.txt" := joinPath_ne _ _ _ (by decide)
    have hne3 : joinPath (joinPath base mode) "extracted_findings.json" ≠
        joinPath (joinPath base mode) "manifest_signer.txt" := joinPath_ne _ _ _ (by decide)
    have hne4 : joinPath (joinPath base mode) "consolidated_security_report.md" ≠
        joinPath (joinPath base mode) "manifest_signer.txt" := joinPath_ne _ _ _ (by decide)
    simp only [gate_one_mode, gate_findings_sections, hreq, Bool.false_eq_true, if_false,
      file_exists_setFile_indep fs (joinPath (joinPath base mode) "manifest_signer.txt") e1 e2,
      read_json_setFile_ne fs _ e1 _ hne1, read_json_setFile_ne fs _ e2 _ hne1,
      read_json_setFile_ne fs _ e1 _ hne2, read_json_setFile_ne fs _ e2 _ hne2,
      read_json_setFile_ne fs _ e1 _ hne3, read_json_setFile_ne fs _ e2 _ hne3,
      read_text_setFile_ne fs _ e1 _ hne4, read_text_setFile_ne fs _ e2 _ hne4,
      read_text_setFile_self]

theorem signer_check_skipped_amended_witness :
    (gate_one_mode { require_signed_manifest := false } "tokyo" "outputs" fsDemo).2 ≠
      Except.ok E_MANIFEST_SIGN ∧
    Event.readEv (joinPath (joinPath "outputs" "tokyo") "manifest.sig") ∉
      (gate_one_mode { require_signed_manifest := false } "tokyo" "outputs" fsDemo).1 ∧
    gate_one_mode { require_signed_manifest := false } "tokyo" "outputs"
      (setFile fsDemo (joinPath (joinPath "outputs" "tokyo") "manifest_signer.txt")
        ⟨"gpg", none⟩) =
    gate_one_mode { require_signed_manifest := false } "tokyo" "outputs"
      (setFile fsDemo (joinPath (joinPath "outputs" "tokyo") "manifest_signer.txt")
        ⟨"openssl", none⟩) := by
  obtain ⟨h1, h2, h3⟩ := signer_check_skipped_amended
    { require_signed_manifest := false } "tokyo" "outputs" fsDemo rfl
  exact ⟨h1, h2 (by simp), h3 ⟨"gpg", none⟩ ⟨"openssl", none⟩⟩

/-- `fsDemo` with the tokyo pre-processing policy report file removed. -/
def fsNoPre : FS := fun p =>
  if p = joinPath (joinPath "outputs" "tokyo") "policy_report.json" then none else fsDemo p

/-- `fsDemo` with the tokyo findings artifact parsing to a JSON object
instead of a sequence. -/
def fsFindingsNotList : FS := fun p =>
  if p = joinPath (joinPath "outputs" "tokyo") "extracted_findings.json" then
    some ⟨"\x7b\x7d", some (JVal.obj [])⟩
  else fsDemo p

/-- C8 counterexample: with the default policy (empty `required_files`),
`policy_report.json` missing from the mode directory does NOT yield exit
code 14 — the gate aborts with an unhandled `FileNotFoundError` instead,
because only paths listed in `required_files` are existence-checked. -/
theorem artifact_missing_unlisted_cex :
    (gate_one_mode {} "tokyo" "outputs" fsNoPre).2 =
      Except.error (PyErr.fileNotFound
        (joinPath (joinPath "outputs" "tokyo") "policy_report.json")) ∧
    (gate_one_mode {} "tokyo" "outputs" fsNoPre).2 ≠ Except.ok E_REQUIRED_OUTPUTS := by
  refine ⟨rfl, fun h => ?_⟩
  rw [show (gate_one_mode {} "tokyo" "outputs" fsNoPre).2 =
    Except.error (PyErr.fileNotFound
      (joinPath (joinPath "outputs" "tokyo") "policy_report.json")) from rfl] at h
  exact Except.noConfusion h

/-- C8 (amended): exit code 14 is produced exactly by the two cases the
code checks: a path listed in the policy's `required_files` missing from
the mode directory, or the findings artifact parsing to a non-sequence.
An artifact that is missing but not listed in `required_files` instead
aborts the run with an unhandled file-not-found error. -/
theorem artifact_missing_amended (rg : ReleaseGate) (mode base : String) (fs : FS)
    (henabled : rg.enabled = true) :
    ((∃ f ∈ rg.required_files, file_exists fs (joinPath base mode) f = false) →
      (gate_one_mode rg mode base fs).2 = Except.ok E_REQUIRED_OUTPUTS) ∧
    ((∀ f ∈ rg.required_files, file_exists fs (joinPath base mode) f = true) →
      fs (joinPath (joinPath base mode) "policy_report.json") = none →
      (gate_one_mode rg mode base fs).2 = Except.error
        (PyErr.fileNotFound (joinPath (joinPath base mode) "policy_report.json"))) ∧
    (∀ (preKvs postKvs : List (String × JVal)) (se : FileEntry) (findings : JVal),
      (∀ f ∈ rg.required_files, file_exists fs (joinPath base mode) f = true) →
      read_json fs (joinPath (joinPath base mode) "policy_report.json") =
        Except.ok (JVal.obj preKvs) →
      isStrEq (dget preKvs "status" JVal.null) "PASS" = true →
      read_json fs (joinPath (joinPath base mode) "policy_report_post.json") =
        Except.ok (JVal.obj postKvs) →
      isStrEq (dget postKvs "status" JVal.null) "PASS" = true →
      fs (joinPath (joinPath base mode) "manifest_signer.txt") = some se →
      rg.require_signed_manifest = false →
      read_json fs (joinPath (joinPath base mode) "extracted_findings.json") =
        Except.ok findings →
      (∀ xs, findings ≠ JVal.arr xs) →
      (gate_one_mode rg mode base fs).2 = Except.ok E_REQUIRED_OUTPUTS) := by
  refine ⟨?_, ?_, ?_⟩
  · intro hmiss
    obtain ⟨f, hf, hne⟩ := hmiss
    have hfmem : f ∈ rg.required_files.filter
        (fun g => !file_exists fs (joinPath base mode) g) :=
      List.mem_filter.mpr ⟨hf, by simp [hne]⟩
    have hm : (rg.required_files.filter
        (fun g => !file_exists fs (joinPath base mode) g)).isEmpty = false := by
      cases hl : rg.required_files.filter
          (fun g => !file_exists fs (joinPath base mode) g) with
      | nil => rw [hl] at hfmem; simp at hfmem
      | cons a l => simp
    simp only [gate_one_mode, henabled, Bool.not_true, Bool.false_eq_true, if_false, hm]
  · intro hreq hnone
    have hfil : rg.required_files.filter
        (fun f => !file_exists fs (joinPath base mode) f) = [] := by
      rw [List.filter_eq_nil_iff]
      intro a ha
      simp [hreq a ha]
    have hrj : read_json fs (joinPath (joinPath base mode) "policy_report.json") =
        Except.error (PyErr.fileNotFound
          (joinPath (joinPath base mode) "policy_report.json")) := by
      simp [read_json, hnone]
    simp only [gate_one_mode, henabled, Bool.not_true, Bool.false_eq_true, if_false, hfil,
      List.isEmpty_nil, eq_self_iff_true, if_true, hrj]
  · intro preKvs postKvs se findings hreqf hpre hps hpost hqs hsig hrsm hfind hnarr
    have hfil : rg.required_files.filter
        (fun f => !file_exists fs (joinPath base mode) f) = [] := by
      rw [List.filter_eq_nil_iff]
      intro a ha
      simp [hreqf a ha]
    have hsigner : read_text fs (joinPath (joinPath base mode) "manifest_signer.txt") =
        Except.ok se.text := by
      simp [read_text, hsig]
    cases findings <;>
      first
      | exact absurd rfl (hnarr _)
      | simp only [gate_one_mode, gate_findings_sections, henabled, Bool.not_true,
          Bool.false_eq_true, if_false, hfil, List.isEmpty_nil, eq_self_iff_true, if_true,
          hpre, hpost, hps, hqs, Bool.not_false, hsigner, hrsm, hfind]

theorem artifact_missing_amended_witness :
    (gate_one_mode { required_files := ["a.json"] } "tokyo" "outputs" fsDemo).2 =
      Except.ok E_REQUIRED_OUTPUTS ∧
    (gate_one_mode {} "tokyo" "outputs" fsNoPre).2 =
      Except.error (PyErr.fileNotFound
        (joinPath (joinPath "outputs" "tokyo") "policy_report.json")) ∧
    (gate_one_mode { require_signed_manifest := false } "tokyo" "outputs"
        fsFindingsNotList).2 = Except.ok E_REQUIRED_OUTPUTS := by
  refine ⟨?_, ?_, ?_⟩
  · exact (artifact_missing_amended { required_files := ["a.json"] } "tokyo" "outputs"
      fsDemo rfl).1 ⟨"a.json", by simp, rfl⟩
  · exact (artifact_missing_amended {} "tokyo" "outputs" fsNoPre rfl).2.1 (by simp) rfl
  · exact (artifact_missing_amended { require_signed_manifest := false } "tokyo" "outputs"
      fsFindingsNotList rfl).2.2 [("status", JVal.str "PASS")] [("status", JVal.str "PASS")]
      ⟨"minisign\n", none⟩ (JVal.obj []) (by simp) rfl rfl rfl rfl rfl rfl rfl
      (fun xs h => JVal.noConfusion h)

theorem gfs_code_indep (rg : ReleaseGate) (m : Int) (mode out_dir : String) (fs : FS)
    (evs0 evs0' : List Event) :
    (gate_findings_sections { rg with max_medium_findings := m } mode out_dir fs evs0).2 =
    (gate_findings_sections rg mode out_dir fs evs0').2 := by
  simp only [gate_findings_sections]
  rcases hj : read_json fs (joinPath out_dir "extracted_findings.json") with e | findings <;>
    simp only [hj] <;> try rfl
  cases findings <;> try rfl
  case arr items =>
  rcases hc : count_severities items with e | counts <;> simp only [hc] <;> try rfl
  by_cases hcrit : rg.fail_on_critical = true ∧ 0 < cget counts "CRITICAL" <;>
    simp only [hcrit, if_true, if_false] <;> try rfl
  by_cases hhigh : rg.max_high_findings < (cget counts "HIGH" : Int) <;>
    simp only [hhigh, if_true, if_false] <;> try rfl
  rcases hm2 : read_text fs (joinPath out_dir "consolidated_security_report.md") with e | md <;>
    simp only [hm2] <;> try rfl
  by_cases hsec : (report_missing_sections rg.required_report_sections md).isEmpty = true <;>
    simp only [hsec, if_true, if_false] <;> try rfl

theorem gate_code_indep (rg : ReleaseGate) (m : Int) (mode base : String) (fs : FS) :
    (gate_one_mode { rg with max_medium_findings := m } mode base fs).2 =
    (gate_one_mode rg mode base fs).2 := by
  simp only [gate_one_mode]
  cases hE : rg.enabled <;>
    simp only [hE, Bool.not_false, Bool.not_true, Bool.false_eq_true, if_true, if_false]
  cases hF : (rg.required_files.filter
      (fun f => !file_exists fs (joinPath base mode) f)).isEmpty <;>
    simp only [hF, Bool.false_eq_true, eq_self_iff_true, if_true, if_false]
  rcases hpre : read_json fs (joinPath (joinPath base mode) "policy_report.json")
      with e | pre <;> simp only [hpre]
  rcases hpost : read_json fs (joinPath (joinPath base mode) "policy_report_post.json")
      with e | post <;> simp only [hpost]
  cases pre
  case null => rfl
  case bool b => rfl
  case num n => rfl
  case str s => rfl
  case arr xs => rfl
  case obj preKvs =>
  cases hps : isStrEq (dget preKvs "status" JVal.null) "PASS" <;>
    simp only [hps, Bool.not_true, Bool.not_false, Bool.false_eq_true, if_true, if_false]
  cases post
  case null => rfl
  case bool b => rfl
  case num n => rfl
  case str s => rfl
  case arr xs => rfl
  case obj postKvs =>
  cases hqs : isStrEq (dget postKvs "status" JVal.null) "PASS" <;>
    simp only [hqs, Bool.not_true, Bool.not_false, Bool.false_eq_true, if_true, if_false]
  rcases hsg : read_text fs (joinPath (joinPath base mode) "manifest_signer.txt")
      with e | signerRaw <;> simp only [hsg]
  cases hR : rg.require_signed_manifest <;>
    simp only [hR, Bool.false_eq_true, eq_self_iff_true, if_true, if_false]
  case false => exact gfs_code_indep rg m mode (joinPath base mode) fs _ _
  case true =>
  cases hal : (rg.allowed_signers.map pyLower).contains (pyLower (pyStrip signerRaw)) <;>
    simp only [hal, Bool.not_true, Bool.not_false, Bool.false_eq_true, if_true, if_false]
  cases hsg2 : (fs (joinPath (joinPath base mode) "manifest.sig")).isSome <;>
    simp only [hsg2, Bool.not_true, Bool.not_false, Bool.false_eq_true, if_true, if_false]
  all_goals exact gfs_code_indep rg m mode (joinPath base mode) fs _ _

/-- `fsDemo` with the tokyo findings artifact holding one MEDIUM finding. -/
def fsMediumFindings : FS := fun p =>
  if p = joinPath (joinPath "outputs" "tokyo") "extracted_findings.json" then
    some ⟨"[\x7b\"severity\": \"MEDIUM\"\x7d]", some (JVal.arr [mkFinding "MEDIUM"])⟩
  else fsDemo p

/-- C7: the `max_medium_findings` threshold never changes the exit code —
the gate's exit code (or exception) is identical for any two values of the
threshold — and with the MEDIUM count strictly above the threshold and all
other validators passing, the gate returns PASS (exit 0) with a non-empty
warning list in its summary. -/
theorem medium_threshold_warning_only :
    (∀ (rg : ReleaseGate) (m : Int) (mode base : String) (fs : FS),
      (gate_one_mode { rg with max_medium_findings := m } mode base fs).2 =
      (gate_one_mode rg mode base fs).2) ∧
    (∀ (rg : ReleaseGate) (mode base : String) (fs : FS)
      (preKvs postKvs : List (String × JVal)) (se : FileEntry) (items : List JVal)
      (counts : List (String × Nat)) (me : FileEntry),
      rg.enabled = true →
      (∀ f ∈ rg.required_files, file_exists fs (joinPath base mode) f = true) →
      read_json fs (joinPath (joinPath base mode) "policy_report.json") =
        Except.ok (JVal.obj preKvs) →
      isStrEq (dget preKvs "status" JVal.null) "PASS" = true →
      read_json fs (joinPath (joinPath base mode) "policy_report_post.json") =
        Except.ok (JVal.obj postKvs) →
      isStrEq (dget postKvs "status" JVal.null) "PASS" = true →
      fs (joinPath (joinPath base mode) "manifest_signer.txt") = some se →
      rg.require_signed_manifest = false →
      read_json fs (joinPath (joinPath base mode) "extracted_findings.json") =
        Except.ok (JVal.arr items) →
      count_severities items = Except.ok counts →
      cget counts "CRITICAL" = 0 →
      (cget counts "HIGH" : Int) ≤ rg.max_high_findings →
      rg.max_medium_findings < (cget counts "MEDIUM" : Int) →
      fs (joinPath (joinPath base mode) "consolidated_security_report.md") = some me →
      report_missing_sections rg.required_report_sections me.text = [] →
      (gate_one_mode rg mode base fs).2 = Except.ok PASS ∧
      ∃ rows, Event.printSummary mode rows
          [Msg.mediumExceed (cget counts "MEDIUM") rg.max_medium_findings] [] ∈
        (gate_one_mode rg mode base fs).1) := by
  constructor
  · exact fun rg m mode base fs => gate_code_indep rg m mode base fs
  · intro rg mode base fs preKvs postKvs se items counts me henabled hreqf hpre hps hpost
      hqs hsig hrsm hfind hcounts hcrit0 hhigh hmed hmd hsect
    have hfil : rg.required_files.filter
        (fun f => !file_exists fs (joinPath base mode) f) = [] := by
      rw [List.filter_eq_nil_iff]
      intro a ha
      simp [hreqf a ha]
    have hsigner : read_text fs (joinPath (joinPath base mode) "manifest_signer.txt") =
        Except.ok se.text := by
      simp [read_text, hsig]
    have hmdr : read_text fs (joinPath (joinPath base mode) "consolidated_security_report.md") =
        Except.ok me.text := by
      simp [read_text, hmd]
    have hncrit : ¬(rg.fail_on_critical = true ∧ 0 < cget counts "CRITICAL") := by
      rw [hcrit0]
      simp
    have hnhigh : ¬(rg.max_high_findings < (cget counts "HIGH" : Int)) := not_lt.mpr hhigh
    simp only [gate_one_mode, gate_findings_sections, henabled, Bool.not_true,
      Bool.false_eq_true, if_false, hfil, List.isEmpty_nil, eq_self_iff_true, if_true,
      hpre, hpost, hps, hqs, Bool.not_false, hsigner, hrsm, hfind, hcounts, hncrit,
      hnhigh, hmed, hmdr, hsect, List.isEmpty_nil]
    exact ⟨trivial, SEV_ORDER.map (fun s => (s, cget counts s)), by simp [summarize]⟩

theorem medium_threshold_warning_only_witness :
    ((gate_one_mode { max_medium_findings := 0 } "tokyo" "outputs" fsMediumFindings).2 =
      (gate_one_mode {} "tokyo" "outputs" fsMediumFindings).2) ∧
    (gate_one_mode { require_signed_manifest := false, max_medium_findings := 0 }
        "tokyo" "outputs" fsMediumFindings).2 = Except.ok PASS ∧
    ∃ rows, Event.printSummary "tokyo" rows [Msg.mediumExceed 1 0] [] ∈
      (gate_one_mode { require_signed_manifest := false, max_medium_findings := 0 }
        "tokyo" "outputs" fsMediumFindings).1 := by
  refine ⟨medium_threshold_warning_only.1 {} 0 "tokyo" "outputs" fsMediumFindings, ?_⟩
  exact medium_threshold_warning_only.2
    { require_signed_manifest := false, max_medium_findings := 0 } "tokyo" "outputs"
    fsMediumFindings [("status", JVal.str "PASS")] [("status", JVal.str "PASS")]
    ⟨"minisign\n", none⟩ [mkFinding "MEDIUM"]
    [("CRITICAL", 0), ("HIGH", 0), ("MEDIUM", 1), ("LOW", 0), ("INFO", 0), ("UNSPECIFIED", 0)]
    ⟨"# Report\n", none⟩ rfl (by simp) rfl rfl rfl rfl rfl rfl rfl rfl rfl (by decide)
    (by decide) rfl rfl

theorem tokyo_reads_localized (rg : ReleaseGate) (base : String) (fs : FS) (p : String)
    (h : Event.readEv p ∈ (gate_one_mode rg "tokyo" base fs).1) :
    (∃ r, p = joinPath (joinPath base "tokyo") r) ∧
    ∀ r, p ≠ joinPath (joinPath base "ny") r := by
  have hd := gate_reads_cases rg "tokyo" base fs p h
  have hex : ∃ r, p = joinPath (joinPath base "tokyo") r := by
    rcases hd with ⟨f, _, hp⟩ | hp | hp | hp | ⟨_, hp⟩ | hp | hp
    · exact ⟨f, hp.symm⟩
    all_goals exact ⟨_, hp⟩
  obtain ⟨r, hr⟩ := hex
  subst hr
  exact ⟨⟨r, rfl⟩, fun r2 => tokyo_ny_path_ne base r r2⟩

/-- C1: with mode selector `"both"` the orchestrator evaluates tokyo first
and then ny; if tokyo's gate returns a non-PASS code the whole run
terminates with exactly that code, the observable behaviour is tokyo's
events followed by the tokyo FAIL line, and every filesystem path read lies
under the tokyo output directory and under no ny path — ny's gate is never
evaluated and none of its artifacts are read.  If tokyo passes and ny
returns a non-PASS code, the run terminates with ny's code after both
gates' events; if both return PASS the run ends with the overall PASS line
and exit code 0. -/
theorem orchestrator_fail_fast (rg : ReleaseGate) (base : String) (fs : FS) :
    (∀ c, (gate_one_mode rg "tokyo" base fs).2 = Except.ok c → c ≠ PASS →
      (mainRun rg "both" base fs =
        ((gate_one_mode rg "tokyo" base fs).1 ++ [Event.printFail "tokyo" c],
         Except.ok c) ∧
       ∀ p, Event.readEv p ∈ (mainRun rg "both" base fs).1 →
        (∃ r, p = joinPath (joinPath base "tokyo") r) ∧
        ∀ r, p ≠ joinPath (joinPath base "ny") r)) ∧
    ((gate_one_mode rg "tokyo" base fs).2 = Except.ok PASS →
      ∀ c2, (gate_one_mode rg "ny" base fs).2 = Except.ok c2 → c2 ≠ PASS →
      mainRun rg "both" base fs =
        ((gate_one_mode rg "tokyo" base fs).1 ++
          ((gate_one_mode rg "ny" base fs).1 ++ [Event.printFail "ny" c2]),
         Except.ok c2)) ∧
    ((gate_one_mode rg "tokyo" base fs).2 = Except.ok PASS →
      (gate_one_mode rg "ny" base fs).2 = Except.ok PASS →
      mainRun rg "both" base fs =
        ((gate_one_mode rg "tokyo" base fs).1 ++
          ((gate_one_mode rg "ny" base fs).1 ++ [Event.printPass]),
         Except.ok PASS)) := by
  refine ⟨?_, ?_, ?_⟩
  · intro c hc hne
    have hmain : mainRun rg "both" base fs =
        ((gate_one_mode rg "tokyo" base fs).1 ++ [Event.printFail "tokyo" c],
         Except.ok c) := by
      rcases hT : gate_one_mode rg "tokyo" base fs with ⟨tEvs, tRes⟩
      rw [hT] at hc
      simp at hc
      subst hc
      simp [mainRun, run_modes, hT, hne]
    refine ⟨hmain, ?_⟩
    intro p hp
    rw [hmain] at hp
    rcases List.mem_append.mp hp with h1 | h2
    · exact tokyo_reads_localized rg base fs p h1
    · simp at h2
  · intro hc c2 hc2 hne2
    rcases hT : gate_one_mode rg "tokyo" base fs with ⟨tEvs, tRes⟩
    rcases hN : gate_one_mode rg "ny" base fs with ⟨nEvs, nRes⟩
    rw [hT] at hc
    rw [hN] at hc2
    simp at hc hc2
    subst hc
    subst hc2
    simp only [PASS] at hne2
    simp [mainRun, run_modes, hT, hN, hne2, PASS]
  · intro hc hc2
    rcases hT : gate_one_mode rg "tokyo" base fs with ⟨tEvs, tRes⟩
    rcases hN : gate_one_mode rg "ny" base fs with ⟨nEvs, nRes⟩
    rw [hT] at hc
    rw [hN] at hc2
    simp at hc hc2
    subst hc
    subst hc2
    simp [mainRun, run_modes, hT, hN, PASS]

theorem orchestrator_fail_fast_witness :
    mainRun {} "both" "outputs" fsPreFail =
      ((gate_one_mode {} "tokyo" "outputs" fsPreFail).1 ++
        [Event.printFail "tokyo" E_POLICY_FAIL], Except.ok E_POLICY_FAIL) ∧
    mainRun {} "both" "outputs" fsDemo =
      ((gate_one_mode {} "tokyo" "outputs" fsDemo).1 ++
        ((gate_one_mode {} "ny" "outputs" fsDemo).1 ++ [Event.printPass]),
       Except.ok PASS) :=
  ⟨((orchestrator_fail_fast {} "outputs" fsPreFail).1 E_POLICY_FAIL rfl (by decide)).1,
   (orchestrator_fail_fast {} "outputs" fsDemo).2.2 rfl rfl⟩
